import Mathlib

/-!
Shallow embedding of the tfjs-umap repository.

Source files modelled:
* `src/umap.js` — the `UMAP` class: `constructor(config)`, `fit(X)`, `fitTransform(X)`.
* `src/utils.js` — `euclidean`, `curveFit`, `findABParams`, `makeRngState`,
  `tauRandInt`, `tauRand`.

Modelling conventions:
* JS numbers are modelled as `ℚ` (exact rationals standing for the numeric
  literals of the source); integer-valued fields (`nNeighbors`, `nComponents`,
  `negativeSampleRate`) are modelled as `ℕ`.
* JS `undefined` is `Option.none`; the JS `x || default` idiom is modelled by
  the `jsOr…` helpers below (`undefined`, `0`, `""` and `false` are falsy).
* JS bitwise operators (`&`, `^`, `<<`, `>>`) coerce their operands with
  `ToInt32` and return signed 32-bit values; this is modelled explicitly on
  `ℤ` via an unsigned representative in `[0, 2^32)`.
* `Math.random()` is ambient, unseeded randomness: it is modelled as an
  explicit input stream `ℕ → ℚ`.
* The numeric outcome of `curveFit` (75 iterations of tfjs SGD on floats,
  `src/utils.js` lines 13–53) is beyond exact modelling; it is abstracted as
  a function parameter of type `SGDFun` receiving exactly the data `curveFit`
  receives: the two random initial values of the variables `a`, `b` and the
  sample vectors `xs`, `ys`.  `tfjs` SGD is a deterministic function of these.
* `nearestNeighbors` is called by `fit` (`src/umap.js` line 156) but is
  defined nowhere under `src/`; it is taken as a function parameter of type
  `NNFun` with the argument list of the call site (see `RPTree` below,
  modelled from the spec).
-/

/-- JS `x || d` for an optional number: `undefined` and `0` are falsy. -/
def jsOrQ (x : Option ℚ) (d : ℚ) : ℚ :=
  match x with
  | none => d
  | some v => if v = 0 then d else v

/-- JS `x || d` for an optional integer-valued number: `undefined` and `0` are falsy. -/
def jsOrN (x : Option ℕ) (d : ℕ) : ℕ :=
  match x with
  | none => d
  | some v => if v = 0 then d else v

/-- JS `x || d` for an optional string: `undefined` and the empty string are falsy. -/
def jsOrStr (x : Option String) (d : String) : String :=
  match x with
  | none => d
  | some v => if v = ("") then d else v

/-- JS `x || d` for an optional boolean: `undefined` and `false` are falsy. -/
def jsOrBool (x : Option Bool) (d : Bool) : Bool :=
  match x with
  | none => d
  | some v => v || d

/-- JS `x || d` for an optional array: arrays are always truthy. -/
def jsOrList (x : Option (List ℚ)) (d : List ℚ) : List ℚ :=
  match x with
  | none => d
  | some v => v

/-- Type of a pluggable distance metric (spec §6): two vectors to a float. -/
def MetricF : Type := List ℚ → List ℚ → ℝ

/-- JS `x || d` for an optional function value: functions are always truthy. -/
def jsOrFn (x : Option MetricF) (d : MetricF) : MetricF :=
  match x with
  | none => d
  | some f => f

/-- `euclidean` from `src/utils.js` lines 8–10: `a.sub(b).norm('euclidean')`,
the euclidean norm of the elementwise difference. -/
noncomputable def euclidean : MetricF :=
  fun a b => Real.sqrt (((a.zip b).map (fun p => ((p.1 - p.2 : ℚ) : ℝ) ^ 2)).sum)

/-- Modelled from the spec (§3, Random-Projection Tree): a binary tree over
point indices whose internal nodes hold a splitting hyperplane and whose
leaves hold point indices.  `nearestNeighbors`, the only producer of these
trees, is absent from `src/`; no claim inspects the forest. -/
inductive RPTree where
  | leaf (indices : List ℕ) : RPTree
  | node (hyperplane : List ℚ) (offset : ℚ) (left : RPTree) (right : RPTree) : RPTree

/-- The configuration object accepted by the `UMAP` constructor
(`src/umap.js` lines 80–99): every field is optional. -/
structure UMAPConfig where
  nNeighbors : Option ℕ := none
  nComponents : Option ℕ := none
  metric : Option MetricF := none
  metricArgs : Option (List ℚ) := none
  nEpochs : Option ℚ := none
  learningRate : Option ℚ := none
  init : Option String := none
  minDist : Option ℚ := none
  spread : Option ℚ := none
  setOpMixRatio : Option ℚ := none
  localConnectivity : Option ℚ := none
  repulsionStrength : Option ℚ := none
  negativeSampleRate : Option ℕ := none
  transformQueueSize : Option ℚ := none
  a : Option ℚ := none
  b : Option ℚ := none
  angularRPForest : Option Bool := none

/-- A `UMAP` instance: fields assigned by the constructor
(`src/umap.js` lines 100–116) plus the fields first assigned during `fit`
(`undefined`, i.e. `none`, until then). -/
structure UMAP where
  nNeighbors : ℕ
  nComponents : ℕ
  nEpochs : Option ℚ
  metric : MetricF
  metricArgs : List ℚ
  learningRate : ℚ
  init : String
  minDist : ℚ
  spread : ℚ
  setOpMixRatio : ℚ
  localConnectivity : ℚ
  repulsionStrength : ℚ
  negativeSampleRate : ℕ
  transformQueueSize : ℚ
  a : Option ℚ
  b : Option ℚ
  angularRPForest : Bool
  _rawData : Option (List (List ℚ)) := none
  _initialAlpha : Option ℚ := none
  _nNeighbors : Option ℕ := none
  _KNNIndices : Option (List (List ℕ)) := none
  _KNNDists : Option (List (List ℝ)) := none
  _RPForest : Option (List RPTree) := none
  embedding_ : Option (List (List ℚ)) := none

/-- `constructor(config)` from `src/umap.js` lines 80–117.  Each field is
set with the JS `||` defaulting idiom; `a` and `b` are stored as given
(possibly `undefined`); there is no validation and no throw anywhere in the
body, so construction is a total function of the configuration. -/
noncomputable def UMAP.construct (c : UMAPConfig) : UMAP :=
  { nNeighbors := jsOrN c.nNeighbors 15
    nComponents := jsOrN c.nComponents 2
    nEpochs := c.nEpochs
    metric := jsOrFn c.metric euclidean
    metricArgs := jsOrList c.metricArgs []
    learningRate := jsOrQ c.learningRate 1
    init := jsOrStr c.init ("spectral")
    minDist := jsOrQ c.minDist (1/10)
    spread := jsOrQ c.spread 1
    setOpMixRatio := jsOrQ c.setOpMixRatio 1
    localConnectivity := jsOrQ c.localConnectivity 1
    repulsionStrength := jsOrQ c.repulsionStrength 1
    negativeSampleRate := jsOrN c.negativeSampleRate 5
    transformQueueSize := jsOrQ c.transformQueueSize 4
    a := c.a
    b := c.b
    angularRPForest := jsOrBool c.angularRPForest false }

/-! ### The RNG (`src/utils.js` lines 101–136)

JS bitwise operators apply `ToInt32` to their operands and produce a signed
32-bit result.  An `Int` is reduced to its unsigned 32-bit representative in
`[0, 2^32)` by `toUInt32`, operated on with `Nat` bitwise operations, and
read back as a signed value by `ofUInt32`.  Note that in JS `x & 0xffffffff`
is the identity on 32-bit values (the literal coerces to `-1`), and `>>` is
the arithmetic (sign-extending) shift. -/

/-- `ToUint32`: the unsigned 32-bit representative of an integer. -/
def toUInt32 (n : ℤ) : ℕ := (n % (2 ^ 32 : ℤ)).toNat

/-- Read an unsigned 32-bit representative back as a signed 32-bit integer. -/
def ofUInt32 (u : ℕ) : ℤ := if u < 2 ^ 31 then (u : ℤ) else (u : ℤ) - 2 ^ 32

/-- JS `a & b` (32-bit bitwise and). -/
def and32 (a b : ℤ) : ℤ := ofUInt32 (Nat.land (toUInt32 a) (toUInt32 b))

/-- JS `a ^ b` (32-bit bitwise xor). -/
def xor32 (a b : ℤ) : ℤ := ofUInt32 (Nat.xor (toUInt32 a) (toUInt32 b))

/-- JS `a << k` (32-bit left shift, discarding bits shifted past bit 31). -/
def shl32 (a : ℤ) (k : ℕ) : ℤ := ofUInt32 ((toUInt32 a <<< k) % 2 ^ 32)

/-- `ToInt32`: the signed 32-bit value of an integer. -/
def toInt32 (n : ℤ) : ℤ := ofUInt32 (toUInt32 n)

/-- JS `a >> k`: arithmetic (sign-extending) right shift of the signed
32-bit value, i.e. floor division by `2 ^ k`. -/
def sar32 (a : ℤ) (k : ℕ) : ℤ := Int.fdiv (toInt32 a) (2 ^ k)

/-- The RNG state: the `(3,)` array of JS numbers. -/
def TauState : Type := ℤ × ℤ × ℤ

/-- `tauRandInt(state)` from `src/utils.js` lines 115–126: three xorshift
lane updates (each a 32-bit expression assigned back into the state array)
followed by the xor of the three updated words.  Returns the updated state
and the drawn value.  The literals `4294967294`, `4294967288`, `4294967280`
and `0xffffffff` are the masks of the source. -/
def tauRandInt (s : TauState) : TauState × ℤ :=
  let s0 := xor32 (and32 (shl32 (and32 s.1 4294967294) 12) 0xffffffff)
                  (sar32 (xor32 (and32 (shl32 s.1 13) 0xffffffff) s.1) 19)
  let s1 := xor32 (and32 (shl32 (and32 s.2.1 4294967288) 4) 0xffffffff)
                  (sar32 (xor32 (and32 (shl32 s.2.1 2) 0xffffffff) s.2.1) 25)
  let s2 := xor32 (and32 (shl32 (and32 s.2.2 4294967280) 17) 0xffffffff)
                  (sar32 (xor32 (and32 (shl32 s.2.2 3) 0xffffffff) s.2.2) 11)
  ((s0, s1, s2), xor32 (xor32 s0 s1) s2)

/-- `tauRand(state)` from `src/utils.js` lines 133–136:
`tauRandInt(state) / 0x7fffffff`.  The division of the drawn integer by the
constant is modelled exactly in `ℚ`. -/
def tauRand (s : TauState) : TauState × ℚ :=
  let r := tauRandInt s
  (r.1, (r.2 : ℚ) / 0x7fffffff)

/-- `makeRngState()` from `src/utils.js` lines 101–108: three draws of
`Math.floor(Math.random() * (MAX_SAFE_INTEGER - MIN_SAFE_INTEGER)) +
MIN_SAFE_INTEGER`, with `Math.random()` modelled as an explicit input
stream. -/
def makeRngState (rnd : ℕ → ℚ) : TauState :=
  (⌊rnd 0 * (9007199254740991 - (-9007199254740991 : ℚ))⌋ + (-9007199254740991),
   ⌊rnd 1 * (9007199254740991 - (-9007199254740991 : ℚ))⌋ + (-9007199254740991),
   ⌊rnd 2 * (9007199254740991 - (-9007199254740991 : ℚ))⌋ + (-9007199254740991))

/-- One call in a sequence of RNG draws: `tauRandInt` or `tauRand`. -/
inductive TauCall where
  | int : TauCall
  | float : TauCall

/-- Run a finite sequence of `tauRandInt` / `tauRand` calls against a state,
returning the list of produced values (integers coerced into `ℚ`) and the
final state. -/
def runTau : List TauCall → TauState → List ℚ × TauState
  | [], s => ([], s)
  | c :: cs, s =>
    let step : ℚ × TauState :=
      match c with
      | TauCall.int => let r := tauRandInt s; ((r.2 : ℚ), r.1)
      | TauCall.float => let r := tauRand s; (r.2, r.1)
    let rest := runTau cs step.2
    (step.1 :: rest.1, rest.2)

/-! ### The curve fitter (`src/utils.js` lines 13–96) -/

/-- Abstraction of `curveFit` (`src/utils.js` lines 13–53): 75 iterations of
tfjs SGD (learning rate 0.5) on the variables `a`, `b` against sample data
`xs`, `ys`.  tfjs SGD is a deterministic function of the initial variable
values and the data; its floating-point numeric outcome is not modelled,
only its dependence on exactly these inputs. -/
def SGDFun : Type := ℚ → ℚ → List ℚ → List ℚ → ℚ × ℚ

/-- `tf.linspace(lo, hi, n)`: `n` evenly spaced samples from `lo` to `hi`
inclusive. -/
def linspace (lo hi : ℚ) (n : ℕ) : List ℚ :=
  (List.range n).map (fun i : ℕ => lo + (hi - lo) * (i : ℚ) / ((n : ℚ) - 1))

/-- The sample grid `xv` of `findABParams` (`src/utils.js` line 77):
`tf.linspace(0, spread * 3, 300)`. -/
def findABParamsXv (spread : ℚ) : List ℚ := linspace 0 (spread * 3) 300

/-- The target vector `yv` that `findABParams` passes to `curveFit`
(`src/utils.js` lines 78–94).  `yv` is created as `tf.zeros(xv.shape)`
(line 78); the two subsequent `yv.where(...)` calls (lines 80 and 82–93,
intended per the comments to set `1.0` below `minDist` and the exponential
decay above it) return fresh tensors that are never assigned to anything —
tfjs tensors are immutable — so the `yv` reaching `curveFit(curve, xv, yv)`
on line 94 is still the all-zero tensor. -/
def findABParamsYv (spread minDist : ℚ) : List ℚ := List.replicate 300 0

/-- `findABParams(spread, minDist)` from `src/utils.js` lines 60–96: the
variables `a` and `b` are initialised with two `Math.random()` draws
(lines 61–62, taken from the ambient stream `rnd`), and `curveFit`
(abstracted by `sgd`) trains them against `xv` and `yv`. -/
def findABParams (sgd : SGDFun) (rnd : ℕ → ℚ) (spread minDist : ℚ) : ℚ × ℚ :=
  sgd (rnd 0) (rnd 1) (findABParamsXv spread) (findABParamsYv spread minDist)

/-! ### `fit` and `fitTransform` (`src/umap.js` lines 119–176) -/

/-- Result record of the `nearestNeighbors` call
(`{ KNNIndices, KNNDists, RPForest }`, `src/umap.js` line 156). -/
structure NNResult where
  KNNIndices : List (List ℕ)
  KNNDists : List (List ℝ)
  RPForest : List RPTree

/-- Type of `nearestNeighbors` as invoked at `src/umap.js` lines 156–162:
`nearestNeighbors(tX, this._nNeighbors, this.metric, this.metricArgs,
this.angularRPForest)`.  The function itself is defined nowhere under
`src/`; any function of this type may stand for it. -/
def NNFun : Type := List (List ℚ) → ℕ → MetricF → List ℚ → Bool → NNResult

/-- The ambient inputs of a `fit` run: the `Math.random()` stream, the
numeric behaviour of `curveFit`, and the (missing) `nearestNeighbors`
implementation. -/
structure FitCtx where
  rnd : ℕ → ℚ
  sgd : SGDFun
  nn : NNFun

/-- The JS global object: `self.embedding_ = …` on `src/umap.js` line 146
assigns a property of the global scope (`self`), not of the instance
(`this`). -/
structure JSGlobal where
  embedding_ : Option (List (List ℚ)) := none

/-- Result of a `fit` call: the instance, the global object, and whether
`nearestNeighbors` was invoked during the run. -/
structure FitResult where
  inst : UMAP
  glob : JSGlobal
  nnInvoked : Bool

/-- `tf.zeros([r, c])`: an `r × c` matrix of zeros. -/
def zerosMat (r c : ℕ) : List (List ℚ) := List.replicate r (List.replicate c 0)

/-- The `a`/`b` step of `fit` (`src/umap.js` lines 135–139): when `this.a`
or `this.b` is `undefined`, both are overwritten with the result of
`findABParams(this.spread, this.minDist)`; otherwise nothing happens. -/
def UMAP.fitAB (u : UMAP) (ctx : FitCtx) : UMAP :=
  if u.a = none ∨ u.b = none then
    { u with a := some (findABParams ctx.sgd ctx.rnd u.spread u.minDist).1
             b := some (findABParams ctx.sgd ctx.rnd u.spread u.minDist).2 }
  else u

/-- The tail of `fit` after the neighbor-count clamp (`src/umap.js` lines
150–165): `this._nNeighbors = k`, then the `nearestNeighbors` call and the
assignment of its three results.  (The `fuzzySimplicialSet` call on lines
166–175 is commented out in the source; `fit` ends here.) -/
def UMAP.fitFrom (u : UMAP) (k : ℕ) (g : JSGlobal) (X : List (List ℚ)) (ctx : FitCtx) :
    FitResult :=
  let u1 := { u with _nNeighbors := some k }
  let r := ctx.nn X k u1.metric u1.metricArgs u1.angularRPForest
  { inst := { u1 with _KNNIndices := some r.KNNIndices
                      _KNNDists := some r.KNNDists
                      _RPForest := some r.RPForest }
    glob := g
    nnInvoked := true }

/-- `fit(X)` from `src/umap.js` lines 133–176.  In order: `this._rawData =
X`; the `a`/`b` step; `this._initialAlpha = this.learningRate`; then the
size check on `tX.shape[0]` (the row count of `X`): a single-sample dataset
short-circuits — assigning the zero embedding to the GLOBAL `self`, not to
`this` — and otherwise the effective neighbor count is clamped and
`nearestNeighbors` runs. -/
def UMAP.fit (u0 : UMAP) (g : JSGlobal) (X : List (List ℚ)) (ctx : FitCtx) : FitResult :=
  let u1 := { u0 with _rawData := some X }
  let u2 := u1.fitAB ctx
  let u3 := { u2 with _initialAlpha := some u2.learningRate }
  if X.length ≤ u3.nNeighbors then
    if X.length = 1 then
      { inst := u3
        glob := { g with embedding_ := some (zerosMat 1 u3.nComponents) }
        nnInvoked := false }
    else u3.fitFrom (X.length - 1) g X ctx
  else u3.fitFrom u3.nNeighbors g X ctx

/-- `fitTransform(X)` from `src/umap.js` lines 124–127: `await this.fit(X)`
then `return this.embedding_`. -/
def UMAP.fitTransform (u0 : UMAP) (g : JSGlobal) (X : List (List ℚ)) (ctx : FitCtx) :
    FitResult × Option (List (List ℚ)) :=
  let r := u0.fit g X ctx
  (r, r.inst.embedding_)

/-! ### Shared concrete inputs for witnesses and counterexamples -/

/-- A concrete ambient context: zero `Math.random()` stream, a `curveFit`
behaviour returning `(0, 0)`, and a `nearestNeighbors` returning empty
tables. -/
def ctx0 : FitCtx :=
  { rnd := fun _ => 0
    sgd := fun _ _ _ _ => (0, 0)
    nn := fun _ _ _ _ _ => { KNNIndices := [], KNNDists := [], RPForest := [] } }

/-- A configuration supplying both curve parameters: `{ a: 1, b: 1 }`. -/
def cfgBoth : UMAPConfig := { a := some 1, b := some 1 }

/-- A configuration supplying only `a`: `{ a: 5 }`. -/
def cfgOnlyA : UMAPConfig := { a := some 5 }

/-- An invalid configuration: `{ minDist: 2, spread: 1 }` (minDist > spread). -/
def cfgBad : UMAPConfig := { minDist := some 2, spread := some 1 }

/-! ### Helper lemmas about the embedding -/

/-- The `a`/`b` step never touches `nNeighbors`. -/
theorem UMAP.fitAB_nNeighbors (u : UMAP) (ctx : FitCtx) :
    (u.fitAB ctx).nNeighbors = u.nNeighbors := by
  unfold UMAP.fitAB; split <;> rfl

/-- The `a`/`b` step never touches `embedding_`. -/
theorem UMAP.fitAB_embedding (u : UMAP) (ctx : FitCtx) :
    (u.fitAB ctx).embedding_ = u.embedding_ := by
  unfold UMAP.fitAB; split <;> rfl

/-- Value of `a` after the `a`/`b` step of `fit`. -/
theorem UMAP.fitAB_a_eq (u : UMAP) (ctx : FitCtx) :
    (u.fitAB ctx).a = if u.a = none ∨ u.b = none
      then some (findABParams ctx.sgd ctx.rnd u.spread u.minDist).1 else u.a := by
  unfold UMAP.fitAB; split <;> simp_all

/-- Value of `b` after the `a`/`b` step of `fit`. -/
theorem UMAP.fitAB_b_eq (u : UMAP) (ctx : FitCtx) :
    (u.fitAB ctx).b = if u.a = none ∨ u.b = none
      then some (findABParams ctx.sgd ctx.rnd u.spread u.minDist).2 else u.b := by
  unfold UMAP.fitAB; split <;> simp_all

/-- `fit` never assigns the instance field `embedding_`: the single-sample
branch writes to the global `self`, and no later stage of the implemented
pipeline touches it. -/
theorem UMAP.fit_inst_embedding (u : UMAP) (g : JSGlobal) (X : List (List ℚ)) (ctx : FitCtx) :
    ((u.fit g X ctx).inst).embedding_ = u.embedding_ := by
  simp only [UMAP.fit, UMAP.fitFrom]
  split_ifs <;> simp [UMAP.fitAB_embedding]

/-- After `fit`, the instance's `a` is exactly what the `a`/`b` step left. -/
theorem UMAP.fit_inst_a (u : UMAP) (g : JSGlobal) (X : List (List ℚ)) (ctx : FitCtx) :
    ((u.fit g X ctx).inst).a = (({ u with _rawData := some X } : UMAP).fitAB ctx).a := by
  simp only [UMAP.fit, UMAP.fitFrom]
  split_ifs <;> rfl

/-- After `fit`, the instance's `b` is exactly what the `a`/`b` step left. -/
theorem UMAP.fit_inst_b (u : UMAP) (g : JSGlobal) (X : List (List ℚ)) (ctx : FitCtx) :
    ((u.fit g X ctx).inst).b = (({ u with _rawData := some X } : UMAP).fitAB ctx).b := by
  simp only [UMAP.fit, UMAP.fitFrom]
  split_ifs <;> rfl

/-- The unsigned 32-bit representative is below `2 ^ 32`. -/
theorem toUInt32_lt (n : ℤ) : toUInt32 n < 2 ^ 32 := by
  unfold toUInt32
  have h1 : (0 : ℤ) ≤ n % 2 ^ 32 := Int.emod_nonneg n (by norm_num)
  have h2 : n % 2 ^ 32 < 2 ^ 32 := Int.emod_lt_of_pos n (by norm_num)
  omega

/-- Reading back an unsigned 32-bit representative lands in the signed
32-bit range. -/
theorem ofUInt32_range (u : ℕ) (h : u < 2 ^ 32) :
    -(2 ^ 31) ≤ ofUInt32 u ∧ ofUInt32 u ≤ 2 ^ 31 - 1 := by
  unfold ofUInt32
  split <;> omega

/-- A JS 32-bit xor always lands in the signed 32-bit range, whatever its
operands. -/
theorem xor32_range (a b : ℤ) : -(2 ^ 31) ≤ xor32 a b ∧ xor32 a b ≤ 2 ^ 31 - 1 :=
  ofUInt32_range _ (Nat.xor_lt_two_pow (toUInt32_lt a) (toUInt32_lt b))

/-! ### The claims -/

/-- Claim C1 (code_bug): on a single-sample dataset, `fit` does skip
neighbor search, but `src/umap.js` line 146 assigns the all-zero
`(1, nComponents)` embedding to `self.embedding_` — `self` is the JS global
object, not the instance — so `this.embedding_` stays `undefined` and
`fitTransform` returns `undefined` instead of the zero embedding.
Evaluated here at the concrete valid configuration `{ a: 1, b: 1 }` and the
one-sample dataset `[[1, 2]]`. -/
theorem fit_single_sample_assigns_global_not_instance :
    ((UMAP.construct cfgBoth).fit {} [[1, 2]] ctx0).nnInvoked = false ∧
    ((UMAP.construct cfgBoth).fit {} [[1, 2]] ctx0).glob.embedding_ = some (zerosMat 1 2) ∧
    (((UMAP.construct cfgBoth).fit {} [[1, 2]] ctx0).inst).embedding_ = none ∧
    ((UMAP.construct cfgBoth).fitTransform {} [[1, 2]] ctx0).2 = none :=
  ⟨rfl, rfl, rfl, rfl⟩

/-- Claim C2 (confirmed): two `fit` runs from the same configuration and
dataset.  First conjunct: the published embedding `this.embedding_` agrees
between the two runs for ANY pair of ambient contexts — `fit` never assigns
the instance field (the single-sample branch writes to the global `self`,
and the implemented pipeline ends after neighbor search).  Second conjunct:
with identical random sources — what a fixed RNG seed means, the code
itself exposing no seed input — the entire run, state and all, is
byte-identical: `fit` is a pure function of its inputs. -/
theorem fit_two_run_reproducible (cfg : UMAPConfig) (g : JSGlobal) (X : List (List ℚ))
    (ctx1 ctx2 : FitCtx) :
    (((UMAP.construct cfg).fit g X ctx1).inst).embedding_
        = (((UMAP.construct cfg).fit g X ctx2).inst).embedding_ ∧
    (ctx1 = ctx2 → (UMAP.construct cfg).fit g X ctx1 = (UMAP.construct cfg).fit g X ctx2) := by
  constructor
  · rw [UMAP.fit_inst_embedding, UMAP.fit_inst_embedding]
  · intro h; rw [h]

/-- Witness for C2 at the empty configuration, a two-sample dataset and the
concrete context `ctx0` on both sides. -/
theorem fit_two_run_reproducible_witness :
    ctx0 = ctx0 ∧
    (UMAP.construct {}).fit {} [[1], [2]] ctx0 = (UMAP.construct {}).fit {} [[1], [2]] ctx0 :=
  ⟨rfl, (fit_two_run_reproducible {} {} [[1], [2]] ctx0 ctx0).2 rfl⟩

/-- Claim C3 (code_bug): the sample grid `xv` is indeed 300 points starting
at `0` on `[0, 3·spread]`, and `0 < minDist`, so the claimed target would
be `1.0` at the first sample; but the target vector `yv` actually handed to
`curveFit` is all zeros — the two `yv.where(...)` results of
`src/utils.js` lines 80–93 are discarded, tfjs tensors being immutable —
so the fitted target is `0`, not the claimed step/exponential curve.
Evaluated at `spread = 1`, `minDist = 1/10`. -/
theorem findABParams_passes_all_zero_target :
    findABParamsYv 1 (1/10) = List.replicate 300 (0 : ℚ) ∧
    (findABParamsXv 1).length = 300 ∧
    (findABParamsXv 1)[0]? = some 0 ∧ ((0 : ℚ) < 1/10) ∧
    (findABParamsYv 1 (1/10)).headI = 0 ∧ (findABParamsYv 1 (1/10)).headI ≠ 1 := by
  refine ⟨rfl, ?_, ?_, by norm_num, rfl, ?_⟩
  · rw [findABParamsXv, linspace, List.length_map, List.length_range]
  · rw [findABParamsXv, linspace, List.getElem?_map, List.getElem?_range (by norm_num)]
    norm_num
  · rw [show (findABParamsYv 1 (1/10)).headI = 0 from rfl]
    norm_num

/-- Claim C4 (code_bug): `tauRand` can return a negative value, contrary to
its own doc comment ("a (pseudo)-random float in the interval [0, 1]") and
the claim: `tauRandInt` is a signed 32-bit xor that is negative on the
state `[-1, -1, -1]`, and the division by `0x7fffffff` keeps the sign. -/
theorem tauRand_returns_negative :
    (tauRand (-1, -1, -1)).2 < 0 ∧ ¬(0 ≤ (tauRand (-1, -1, -1)).2) ∧
    (tauRandInt (-1, -1, -1)).2 = -2089088 := by
  have h : (tauRand (-1, -1, -1)).2 = ((-2089088 : ℤ) : ℚ) / 0x7fffffff := rfl
  refine ⟨?_, ?_, rfl⟩ <;> rw [h] <;> norm_num

/-- Claim C5 (confirmed): the RNG reads nothing but its state argument:
two runs of the same finite call sequence from equal initial states
produce equal value traces and equal final states. -/
theorem tauRand_sequence_deterministic (calls : List TauCall) (s1 s2 : TauState)
    (h : s1 = s2) :
    runTau calls s1 = runTau calls s2 := by rw [h]

/-- Witness for C5: the sequence `[int, float]` from the state `(1, 2, 3)`
on both runs. -/
theorem tauRand_sequence_deterministic_witness :
    ((1, 2, 3) : TauState) = (1, 2, 3) ∧
    runTau [TauCall.int, TauCall.float] (1, 2, 3)
      = runTau [TauCall.int, TauCall.float] (1, 2, 3) :=
  ⟨rfl, tauRand_sequence_deterministic [TauCall.int, TauCall.float] (1, 2, 3) (1, 2, 3) rfl⟩

/-- Counterexample to claim C6: the constructor raises nothing — it is a
total function — and at the invalid combination `{ minDist: 2, spread: 1 }`
it simply returns an instance storing `minDist = 2 > 1 = spread`.  No
`ConfigError` (nor any other error path) exists anywhere in the
constructor's body (`src/umap.js` lines 80–117). -/
theorem construct_accepts_minDist_gt_spread :
    (UMAP.construct cfgBad).minDist = 2 ∧ (UMAP.construct cfgBad).spread = 1 ∧
    (UMAP.construct cfgBad).spread < (UMAP.construct cfgBad).minDist := by
  refine ⟨rfl, rfl, ?_⟩
  show (1 : ℚ) < 2
  norm_num

/-- Claim C6 as amended (corrected): the constructor performs no validation
at all: every configuration — including invalid parameter combinations such
as `minDist > spread` — is accepted without any error, each nonzero
supplied value being stored as-is. -/
theorem construct_no_validation (m s : ℚ) (hm : m ≠ 0) (hs : s ≠ 0) :
    (UMAP.construct { minDist := some m, spread := some s }).minDist = m ∧
    (UMAP.construct { minDist := some m, spread := some s }).spread = s := by
  constructor <;> simp [UMAP.construct, jsOrQ, hm, hs]

/-- Witness for the amended C6 at the invalid combination `minDist = 2`,
`spread = 1`. -/
theorem construct_no_validation_witness :
    ((2 : ℚ) ≠ 0 ∧ (1 : ℚ) ≠ 0) ∧
    ((UMAP.construct { minDist := some 2, spread := some 1 }).minDist = 2 ∧
      (UMAP.construct { minDist := some 2, spread := some 1 }).spread = 1) :=
  ⟨⟨by decide, by decide⟩, construct_no_validation 2 1 (by decide) (by decide)⟩

/-- Claim C7 (confirmed): for a dataset of `N ≥ 2` samples, `fit` does not
fail; it clamps the effective neighbor count `this._nNeighbors` to `N − 1`
when `N ≤ nNeighbors` and uses the configured `nNeighbors` when
`N > nNeighbors`, running neighbor search either way
(`src/umap.js` lines 143–153). -/
theorem fit_clamps_effective_nNeighbors (u : UMAP) (g : JSGlobal) (X : List (List ℚ))
    (ctx : FitCtx) (h2 : 2 ≤ X.length) :
    (X.length ≤ u.nNeighbors →
      ((u.fit g X ctx).inst)._nNeighbors = some (X.length - 1) ∧
        (u.fit g X ctx).nnInvoked = true) ∧
    (u.nNeighbors < X.length →
      ((u.fit g X ctx).inst)._nNeighbors = some u.nNeighbors ∧
        (u.fit g X ctx).nnInvoked = true) := by
  have h1 : X.length ≠ 1 := by omega
  constructor
  · intro hle
    simp only [UMAP.fit, UMAP.fitAB_nNeighbors]
    rw [if_pos, if_neg h1]
    · exact ⟨rfl, rfl⟩
    · simpa [UMAP.fitAB_nNeighbors] using hle
  · intro hgt
    simp only [UMAP.fit, UMAP.fitAB_nNeighbors]
    rw [if_neg]
    · exact ⟨rfl, rfl⟩
    · simpa [UMAP.fitAB_nNeighbors] using hgt

/-- Witness for C7: the empty configuration (`nNeighbors = 15`) on a
three-sample dataset clamps the effective neighbor count to `2`. -/
theorem fit_clamps_effective_nNeighbors_witness :
    (((UMAP.construct {}).fit {} [[0], [1], [2]] ctx0).inst)._nNeighbors = some 2 ∧
    ((UMAP.construct {}).fit {} [[0], [1], [2]] ctx0).nnInvoked = true :=
  (fit_clamps_effective_nNeighbors (UMAP.construct {}) {} [[0], [1], [2]] ctx0
    (by decide)).1 (by decide)

/-- Counterexample to claim C8: a `fit` call on a configuration supplying
`a = 5` alone (`b` unsupplied) overwrites the supplied `a`: the condition
on `src/umap.js` line 135 is a disjunction, so both parameters are
reassigned from `findABParams` whenever either is missing.  Under the
concrete context `ctx0` the stored `a` becomes `0 ≠ 5`. -/
theorem fit_overwrites_supplied_a :
    (((UMAP.construct cfgOnlyA).fit {} [[0], [1]] ctx0).inst).a = some 0 ∧
    some (0 : ℚ) ≠ some (5 : ℚ) :=
  ⟨rfl, by norm_num⟩

/-- Claim C8 as amended (corrected): the curve parameters are computed (and
BOTH overwritten with the `findABParams` result) exactly when `a` or `b` is
unsupplied; the configured values are left unchanged by `fit` only when
both are supplied. -/
theorem fit_ab_computed_iff_not_both_supplied (u : UMAP) (g : JSGlobal)
    (X : List (List ℚ)) (ctx : FitCtx) :
    (u.a ≠ none → u.b ≠ none →
      ((u.fit g X ctx).inst).a = u.a ∧ ((u.fit g X ctx).inst).b = u.b) ∧
    (u.a = none ∨ u.b = none →
      ((u.fit g X ctx).inst).a = some (findABParams ctx.sgd ctx.rnd u.spread u.minDist).1 ∧
      ((u.fit g X ctx).inst).b = some (findABParams ctx.sgd ctx.rnd u.spread u.minDist).2) := by
  rw [UMAP.fit_inst_a, UMAP.fit_inst_b, UMAP.fitAB_a_eq, UMAP.fitAB_b_eq]
  constructor
  · intro ha hb
    rw [if_neg, if_neg] <;> simp_all
  · intro h
    rw [if_pos, if_pos] <;> simp_all

/-- Witness for the amended C8: with `{ a: 1, b: 1 }` supplied, `fit`
leaves both parameters unchanged. -/
theorem fit_ab_computed_iff_not_both_supplied_witness :
    ((UMAP.construct cfgBoth).a ≠ none ∧ (UMAP.construct cfgBoth).b ≠ none) ∧
    ((((UMAP.construct cfgBoth).fit {} [[0], [1]] ctx0).inst).a = (UMAP.construct cfgBoth).a ∧
      (((UMAP.construct cfgBoth).fit {} [[0], [1]] ctx0).inst).b = (UMAP.construct cfgBoth).b) :=
  ⟨⟨by decide, by decide⟩,
    (fit_ab_computed_iff_not_both_supplied (UMAP.construct cfgBoth) {} [[0], [1]] ctx0).1
      (by decide) (by decide)⟩

/-- Claim C9 (code_bug): every omitted parameter does get its documented
default (first twelve conjuncts), but a supplied value that is valid for
its stated range and falsy in JS is NOT stored: `setOpMixRatio: 0.0` —
valid per the constructor's own doc comment ("should be between 0.0 and
1.0; ... 0.0 will use a pure fuzzy intersection") — is replaced by the
default `1.0`, because `setOpMixRatio || 1.0` treats `0` as falsy. -/
theorem construct_defaults_and_drops_zero_setOpMixRatio :
    (UMAP.construct {}).nNeighbors = 15 ∧ (UMAP.construct {}).nComponents = 2 ∧
    (UMAP.construct {}).metric = euclidean ∧ (UMAP.construct {}).learningRate = 1 ∧
    (UMAP.construct {}).init = ("spectral") ∧ (UMAP.construct {}).minDist = 1/10 ∧
    (UMAP.construct {}).spread = 1 ∧ (UMAP.construct {}).setOpMixRatio = 1 ∧
    (UMAP.construct {}).localConnectivity = 1 ∧ (UMAP.construct {}).repulsionStrength = 1 ∧
    (UMAP.construct {}).negativeSampleRate = 5 ∧ (UMAP.construct {}).angularRPForest = false ∧
    (UMAP.construct { setOpMixRatio := some 0 }).setOpMixRatio = 1 ∧ (1 : ℚ) ≠ 0 :=
  ⟨rfl, rfl, rfl, rfl, rfl, rfl, rfl, rfl, rfl, rfl, rfl, rfl, rfl, by norm_num⟩

/-- Claim C10 (confirmed): for every 3-word state, of any magnitude, the
value returned by `tauRandInt` and each of the three updated state words
lie in the signed 32-bit range `[-2^31, 2^31 - 1]`: each is the result of a
JS 32-bit xor. -/
theorem tauRandInt_int32_range (s : TauState) :
    (-(2 ^ 31) ≤ (tauRandInt s).2 ∧ (tauRandInt s).2 ≤ 2 ^ 31 - 1) ∧
    (-(2 ^ 31) ≤ (tauRandInt s).1.1 ∧ (tauRandInt s).1.1 ≤ 2 ^ 31 - 1) ∧
    (-(2 ^ 31) ≤ (tauRandInt s).1.2.1 ∧ (tauRandInt s).1.2.1 ≤ 2 ^ 31 - 1) ∧
    (-(2 ^ 31) ≤ (tauRandInt s).1.2.2 ∧ (tauRandInt s).1.2.2 ≤ 2 ^ 31 - 1) := by
  simp only [tauRandInt]
  exact ⟨xor32_range _ _, xor32_range _ _, xor32_range _ _, xor32_range _ _⟩
